import Mathlib

/-!
Verification of the TaxBit export pipeline in `bridge/taxbit_service.py`.

The Python module is shallowly embedded below.  Conventions used throughout:

* Python `bytes` values become `List Byte` with `Byte := Fin 256`.
* Python `str` values become Lean `String`; the ASCII-only case conversions
  used on addresses/denominations are modelled by `asciiLower`/`asciiUpper`.
* `datetime` values become the explicit record `PyDateTime`; the wall clock
  (`datetime.now(timezone.utc)`) is passed as an explicit `now` parameter.
* `hashlib.sha256(...).hexdigest()` is passed as an opaque pure function
  parameter `digest`; no claim depends on the digest's actual value.
* Python `float` results are modelled as the exact rational produced by
  IEEE-754 binary64 round-to-nearest-even (`pyFloat?`), with `none` standing
  for `OverflowError`; `repr` of a float in CSV output is passed as an opaque
  parameter `frepr` (no claim depends on a float ever being printed).
* The network-backed RPC fallback strategies are modelled by an explicit
  parameter `rpc : List Tx` holding the candidate transactions they supplied
  (an unreachable node or a raised exception corresponds to `rpc = []`).
-/

/-- A byte, as stored in the LevelDB key/value blobs. -/
abbrev Byte := Fin 256

/-- Lowercase hex digit characters, as produced by Python `bytes.hex()`. -/
def hexDigitChar (n : ℕ) : Char :=
  "0123456789abcdef".toList.getD n '0'

/-- Python `bytes.hex()`: two lowercase hex digits per byte. -/
def bytesToHex (bs : List Byte) : String :=
  String.mk (bs.flatMap (fun b => [hexDigitChar (b.val / 16), hexDigitChar (b.val % 16)]))

/-- Value of one hex digit character (either case), `none` for non-hex. -/
def hexVal? (c : Char) : Option ℕ :=
  if '0' ≤ c ∧ c ≤ '9' then some (c.toNat - '0'.toNat)
  else if 'a' ≤ c ∧ c ≤ 'f' then some (c.toNat - 'a'.toNat + 10)
  else if 'A' ≤ c ∧ c ≤ 'F' then some (c.toNat - 'A'.toNat + 10)
  else none

/-- Character-list core of Python `bytes.fromhex` (whitespace-free form):
pairs of hex digits, `none` on an odd count or a non-hex character. -/
def hexPairsToBytes? : List Char → Option (List Byte)
  | [] => some []
  | [_] => none
  | c1 :: c2 :: rest =>
    match hexVal? c1, hexVal? c2, hexPairsToBytes? rest with
    | some h, some l, some bs =>
      if hp : 16 * h + l < 256 then some (⟨16 * h + l, hp⟩ :: bs) else none
    | _, _, _ => none

/-- Python `bytes.fromhex` on a plain hex string (no embedded whitespace,
which never occurs in this pipeline's address strings). -/
def bytesFromHex? (s : String) : Option (List Byte) :=
  hexPairsToBytes? s.toList

/-- Is `c` an ASCII hex digit (the regex class `[0-9a-fA-F]`)? -/
def isHexChar (c : Char) : Bool :=
  (hexVal? c).isSome

/-- Is `c` an ASCII decimal digit? -/
def isDigitChar (c : Char) : Bool :=
  '0' ≤ c ∧ c ≤ '9'

/-- ASCII lower-casing of one character (Python `str.lower` restricted to the
ASCII identifiers/addresses this pipeline manipulates). -/
def asciiLowerChar (c : Char) : Char :=
  if 'A' ≤ c ∧ c ≤ 'Z' then Char.ofNat (c.toNat + 32) else c

/-- ASCII upper-casing of one character. -/
def asciiUpperChar (c : Char) : Char :=
  if 'a' ≤ c ∧ c ≤ 'z' then Char.ofNat (c.toNat - 32) else c

/-- Python `str.lower` (ASCII fragment). -/
def asciiLower (s : String) : String :=
  String.mk (s.toList.map asciiLowerChar)

/-- Python `str.upper` (ASCII fragment). -/
def asciiUpper (s : String) : String :=
  String.mk (s.toList.map asciiUpperChar)

/-- Does the list start with the given pattern? -/
def listStartsWith [DecidableEq α] : List α → List α → Bool
  | _, [] => true
  | [], _ :: _ => false
  | a :: as, b :: bs => a = b && listStartsWith as bs

/-- Does `haystack` contain `needle` as a contiguous run (Python `in` on
`str`/`bytes`)?  The empty needle is contained everywhere, as in Python. -/
def seqContains [DecidableEq α] (haystack needle : List α) : Bool :=
  match haystack with
  | [] => needle.isEmpty
  | _ :: t => listStartsWith haystack needle || seqContains t needle

/-- Python `needle in s` for strings. -/
def strContains (s needle : String) : Bool :=
  seqContains s.toList needle.toList

/-- Python `s.startswith (p)` for strings. -/
def strStartsWith (s p : String) : Bool :=
  listStartsWith s.toList p.toList

/-- Fuel-driven core of Python `str.replace`: left-to-right, non-overlapping
occurrences of `pat` replaced by `rep`. -/
def replaceCore [DecidableEq α] (pat rep : List α) : ℕ → List α → List α
  | 0, l => l
  | _, [] => []
  | fuel + 1, a :: as =>
    if pat ≠ [] ∧ listStartsWith (a :: as) pat then
      rep ++ replaceCore pat rep fuel ((a :: as).drop pat.length)
    else
      a :: replaceCore pat rep fuel as

/-- Python `s.replace(pat, rep)` for a non-empty pattern (the only case this
pipeline uses). -/
def pyStrReplace (s pat rep : String) : String :=
  String.mk (replaceCore pat.toList rep.toList s.toList.length s.toList)

/-- Reversal of a string, Python `s[::-1]`. -/
def strRev (s : String) : String :=
  String.mk s.toList.reverse

/-- Python `s[:n]` for strings. -/
def strTake (s : String) (n : ℕ) : String :=
  String.mk (s.toList.take n)

/-- Decimal digits to a natural number. -/
def digitsToNat (cs : List Char) : ℕ :=
  cs.foldl (fun acc c => acc * 10 + (c.toNat - '0'.toNat)) 0

/-- Parse a non-empty all-digit string as a natural number, the fragment of
Python `int`/`Decimal` parsing exercised by this pipeline (all amounts are
unsigned base-unit integers rendered with `str`). -/
def parsePyNat? (s : String) : Option ℕ :=
  if s.toList ≠ [] ∧ s.toList.all isDigitChar then some (digitsToNat s.toList) else none

/-- Left-pad the decimal rendering of `n` with zeros to width `w`. -/
def padNum (w n : ℕ) : String :=
  String.mk (List.replicate (w - (toString n).length) '0') ++ toString n

/-- A Python `datetime` as used by this pipeline: all components plus a flag
recording whether `tzinfo` is `timezone.utc` (`true`) or absent (`false`).
Only the UTC offset ever occurs here, since every parsed string either has no
offset or has offset `+00:00` (possibly spelled `Z` before replacement). -/
structure PyDateTime where
  year : ℕ
  month : ℕ
  day : ℕ
  hour : ℕ
  minute : ℕ
  second : ℕ
  usec : ℕ
  utc : Bool
deriving DecidableEq, Repr

/-- Component list used for comparisons. -/
def dtKey (d : PyDateTime) : List ℕ :=
  [d.year, d.month, d.day, d.hour, d.minute, d.second, d.usec]

/-- Lexicographic strict order on equally long lists of naturals. -/
def natListLt : List ℕ → List ℕ → Bool
  | [], [] => false
  | [], _ :: _ => true
  | _ :: _, [] => false
  | a :: as, b :: bs => if a < b then true else if b < a then false else natListLt as bs

/-- Python `<` on two datetimes carrying the same (UTC or absent) `tzinfo`:
componentwise lexicographic comparison. -/
def dtLt (a b : PyDateTime) : Bool :=
  natListLt (dtKey a) (dtKey b)

/-- Python `<=` on two datetimes carrying the same `tzinfo`. -/
def dtLe (a b : PyDateTime) : Bool :=
  !(dtLt b a)

/-- Days in a month, Gregorian calendar with leap years, as validated by
`datetime.fromisoformat`. -/
def daysInMonth (year month : ℕ) : ℕ :=
  if month = 2 then
    if year % 4 = 0 ∧ (year % 100 ≠ 0 ∨ year % 400 = 0) then 29 else 28
  else if month = 4 ∨ month = 6 ∨ month = 9 ∨ month = 11 then 30
  else 31

/-- Are the components a valid calendar datetime (`datetime`'s own checks)? -/
def dtValid (d : PyDateTime) : Bool :=
  1 ≤ d.year ∧ 1 ≤ d.month ∧ d.month ≤ 12 ∧ 1 ≤ d.day ∧ d.day ≤ daysInMonth d.year d.month
    ∧ d.hour ≤ 23 ∧ d.minute ≤ 59 ∧ d.second ≤ 59 ∧ d.usec ≤ 999999

/-- Accumulator loop of `readDigits`. -/
def readDigitsAux : ℕ → ℕ → List Char → Option (ℕ × List Char)
  | 0, acc, cs => some (acc, cs)
  | n + 1, acc, c :: cs =>
    if isDigitChar c then readDigitsAux n (acc * 10 + (c.toNat - '0'.toNat)) cs else none
  | _ + 1, _, [] => none

/-- Read exactly `n` decimal digits from the front of a character list. -/
def readDigits (n : ℕ) (cs : List Char) : Option (ℕ × List Char) :=
  readDigitsAux n 0 cs

/-- Take the maximal run of leading digits. -/
def takeDigits : List Char → List Char × List Char
  | [] => ([], [])
  | c :: cs =>
    if isDigitChar c then
      let (d, r) := takeDigits cs
      (c :: d, r)
    else ([], c :: cs)

/-- Microsecond value of a fractional-seconds digit run: the first six digits,
right-padded with zeros (digits beyond six are truncated, as in
`datetime.fromisoformat` on Python 3.11+). -/
def fracToUsec (ds : List Char) : ℕ :=
  digitsToNat ((ds.take 6) ++ List.replicate (6 - ds.length) '0')

/-- Parse the optional trailing timezone designator.  After the pipeline's
`replace('Z', '+00:00')` step the only offset that can occur is `+00:00`;
an empty remainder means a naive datetime.  Anything else fails. -/
def parseTz : List Char → Option Bool
  | [] => some false
  | '+' :: '0' :: '0' :: ':' :: '0' :: '0' :: [] => some true
  | _ => none

/-- Parse the time-of-day part `HH:MM:SS[.ffffff][+00:00]`. -/
def parseTimePart (cs : List Char) : Option (ℕ × ℕ × ℕ × ℕ × Bool) := do
  let (h, cs) ← readDigits 2 cs
  match cs with
  | ':' :: cs => do
    let (mi, cs) ← readDigits 2 cs
    match cs with
    | ':' :: cs => do
      let (s, cs) ← readDigits 2 cs
      match cs with
      | '.' :: cs =>
        let (ds, rest) := takeDigits cs
        if ds = [] then none
        else do
          let tz ← parseTz rest
          some (h, mi, s, fracToUsec ds, tz)
      | _ => do
        let tz ← parseTz cs
        some (h, mi, s, 0, tz)
    | _ => none
  | _ => none

/-- `datetime.fromisoformat`, restricted to the shapes this pipeline can
produce after its `replace('Z', '+00:00')` normalisation: `YYYY-MM-DD`
(naive midnight) or `YYYY-MM-DD<sep>HH:MM:SS[.ffffff][+00:00]` with an
arbitrary single separator character, validated against the calendar.
Abbreviated time fractions follow the Python 3.11 semantics. -/
def parseIso (s : String) : Option PyDateTime := do
  let (y, cs) ← readDigits 4 s.toList
  match cs with
  | '-' :: cs => do
    let (mo, cs) ← readDigits 2 cs
    match cs with
    | '-' :: cs => do
      let (d, cs) ← readDigits 2 cs
      let dt ←
        match cs with
        | [] => some (PyDateTime.mk y mo d 0 0 0 0 false)
        | _ :: rest => do
          let (h, mi, sec, us, tz) ← parseTimePart rest
          some (PyDateTime.mk y mo d h mi sec us tz)
      if dtValid dt then some dt else none
    | _ => none
  | _ => none

/-- `datetime.isoformat()` for the datetimes of this pipeline: fractional part
printed only when non-zero, `+00:00` suffix only when `tzinfo` is UTC. -/
def printIso (d : PyDateTime) : String :=
  padNum 4 d.year ++ "-" ++ padNum 2 d.month ++ "-" ++ padNum 2 d.day ++ "T"
    ++ padNum 2 d.hour ++ ":" ++ padNum 2 d.minute ++ ":" ++ padNum 2 d.second
    ++ (if d.usec ≠ 0 then "." ++ padNum 6 d.usec else "")
    ++ (if d.utc then "+00:00" else "")

/-- `TaxBitService.format_timestamp`: force UTC, serialise, spell the offset
as `Z`. -/
def format_timestamp (d : PyDateTime) : String :=
  pyStrReplace (printIso { d with utc := true }) "+00:00" "Z"

/-- `datetime.strptime(ts, '%Y-%m-%dT%H:%M:%S.%fZ')`: the fallback timestamp
format of `convert_transaction`.  Requires the literal dot, one to six
fractional digits and a trailing `Z`; yields a naive datetime. -/
def parse_strptime_fz (s : String) : Option PyDateTime := do
  let (y, cs) ← readDigits 4 s.toList
  match cs with
  | '-' :: cs => do
    let (mo, cs) ← readDigits 2 cs
    match cs with
    | '-' :: cs => do
      let (d, cs) ← readDigits 2 cs
      match cs with
      | 'T' :: cs => do
        let (h, cs) ← readDigits 2 cs
        match cs with
        | ':' :: cs => do
          let (mi, cs) ← readDigits 2 cs
          match cs with
          | ':' :: cs => do
            let (sec, cs) ← readDigits 2 cs
            match cs with
            | '.' :: cs =>
              let (ds, rest) := takeDigits cs
              if ds = [] ∨ 6 < ds.length ∨ rest ≠ ['Z'] then none
              else
                let dt := PyDateTime.mk y mo d h mi sec (fracToUsec ds) false
                if dtValid dt then some dt else none
            | _ => none
          | _ => none
        | _ => none
      | _ => none
    | _ => none
  | _ => none

/-!
The library's field operations on `ℚ` are marked irreducible, which blocks
kernel evaluation inside `decide`.  The float model therefore spells its
rational arithmetic through `Rat.divInt`/`mkRat` (which the kernel
evaluates); the lemmas `qMul_eq`, `qDiv_eq`, `qNeg_eq` and `qAbs_eq` below
show these agree with the ordinary field operations.
-/

/-- Multiplication on `ℚ` via explicit numerator/denominator. -/
def qMul (a b : ℚ) : ℚ :=
  Rat.divInt (a.num * b.num) ((a.den : ℤ) * (b.den : ℤ))

/-- Division on `ℚ` via explicit numerator/denominator (total, with the
convention `qDiv a 0 = 0`; every divisor used below is non-zero). -/
def qDiv (a b : ℚ) : ℚ :=
  Rat.divInt (a.num * (b.den : ℤ)) ((a.den : ℤ) * b.num)

/-- Negation on `ℚ` via explicit numerator/denominator. -/
def qNeg (a : ℚ) : ℚ :=
  Rat.divInt (-a.num) (a.den : ℤ)

/-- Absolute value on `ℚ` via the numerator sign. -/
def qAbs (a : ℚ) : ℚ :=
  if a.num < 0 then qNeg a else a

/-- `2 ^ e` as a rational, for an integer exponent. -/
def ratPow2 (e : ℤ) : ℚ :=
  if 0 ≤ e then mkRat ((2 ^ e.toNat : ℕ) : ℤ) 1 else mkRat 1 (2 ^ (-e).toNat)

/-- Fuel-driven base-2 logarithm loop. -/
def natLog2Aux : ℕ → ℕ → ℕ
  | 0, _ => 0
  | fuel + 1, n => if 2 ≤ n then natLog2Aux fuel (n / 2) + 1 else 0

/-- Floor of the base-2 logarithm of a natural number. -/
def natLog2 (n : ℕ) : ℕ :=
  natLog2Aux n n

/-- Binary exponent of a positive rational: the unique `e` with
`2 ^ e ≤ q < 2 ^ (e + 1)`, located from `natLog2` of numerator and
denominator and adjusted by comparison. -/
def ratExpOf (q : ℚ) : ℤ :=
  let e0 : ℤ := (natLog2 q.num.natAbs : ℤ) - (natLog2 q.den : ℤ)
  if q < ratPow2 (e0 - 1) then e0 - 2
  else if q < ratPow2 e0 then e0 - 1
  else if q < ratPow2 (e0 + 1) then e0
  else e0 + 1

/-- Floor of a rational as an integer (floor division of numerator by
denominator). -/
def ratFloorZ (q : ℚ) : ℤ :=
  Int.fdiv q.num q.den

/-- Round a rational to the nearest integer, ties to even.  `rem` is the
numerator of the fractional part over the (positive) denominator, so the
half-way comparisons are exact integer comparisons of `2 * rem` with the
denominator. -/
def roundHalfEvenZ (x : ℚ) : ℤ :=
  let f := ratFloorZ x
  let rem := x.num - f * (x.den : ℤ)
  if 2 * rem < (x.den : ℤ) then f
  else if (x.den : ℤ) < 2 * rem then f + 1
  else if f % 2 = 0 then f else f + 1

/-- Nearest IEEE-754 binary64 value to a positive rational (round to nearest,
ties to even; subnormal range handled by the exponent clamp).  The result is
returned as the exact rational the double denotes. -/
def pyFloatPos (q : ℚ) : ℚ :=
  let e := max (ratExpOf q) (-1022)
  let ulp := ratPow2 (e - 52)
  qMul (mkRat (roundHalfEvenZ (qDiv q ulp)) 1) ulp

/-- Python `float(...)` applied to an exact numeric value: binary64 rounding,
with `none` for the `OverflowError` raised beyond the finite range. -/
def pyFloat? (q : ℚ) : Option ℚ :=
  if q = 0 then some 0
  else
    let r := pyFloatPos (qAbs q)
    if ratPow2 1024 ≤ r then none
    else some (if q < 0 then qNeg r else r)

/-- `TokenInfo` entries of the `TokenRegistry`. -/
structure TokenInfo where
  symbol : String
  decimals : ℕ
  name : String
deriving DecidableEq, Repr

/-- `TokenRegistry.get_token_info`: the six built-in denominations, the
42-character `0x` contract fallback with 18 decimals, and the 0-decimal
upper-cased passthrough. -/
def get_token_info (denom_or_contract : String) : TokenInfo :=
  let dl := asciiLower denom_or_contract
  if dl = "cint" then ⟨"CINT", 18, "Cintara"⟩
  else if dl = "ucint" then ⟨"CINT", 6, "Cintara (micro)"⟩
  else if dl = "acint" then ⟨"CINT", 18, "Cintara (atto)"⟩
  else if dl = "usdc" then ⟨"USDC", 6, "USD Coin"⟩
  else if dl = "usdt" then ⟨"USDT", 6, "Tether USD"⟩
  else if dl = "weth" then ⟨"WETH", 18, "Wrapped Ether"⟩
  else if strStartsWith dl "0x" ∧ dl.toList.length = 42 then
    ⟨"TOKEN_" ++ strTake dl 6, 18, "Unknown Token"⟩
  else ⟨asciiUpper denom_or_contract, 0, "Unknown"⟩

/-- `TaxBitService.convert_amount`.  The exact `Decimal` quotient is computed
with rational arithmetic and then cast to a binary64 float (`pyFloat?`);
a parse failure or an overflow takes the exception branch returning
`(0.0, denom.upper())`.  The `Decimal` constructor is modelled on the
unsigned-integer strings this pipeline feeds it. -/
def convert_amount (amount_str denom : String) : ℚ × String :=
  match parsePyNat? amount_str with
  | none => (0, asciiUpper denom)
  | some n =>
    let info := get_token_info denom
    let exact : ℚ :=
      if 0 < info.decimals then
        qDiv (mkRat (n : ℤ) 1) (mkRat ((10 ^ info.decimals : ℕ) : ℤ) 1)
      else mkRat (n : ℤ) 1
    match pyFloat? exact with
    | some f => (f, info.symbol)
    | none => (0, asciiUpper denom)

/-- One event of a normalized transaction record.  Attributes are the
string-keyed dictionary form used throughout classification and conversion. -/
structure TxEvent where
  type : String
  attributes : List (String × String)
deriving DecidableEq, Repr

/-- `attributes.get(key, '')` on the event dictionary (keys are unique). -/
def attrGet (attrs : List (String × String)) (key : String) : String :=
  match attrs.find? (fun p => p.1 = key) with
  | some p => p.2
  | none => ""

/-- `attributes.get(key, '0')`. -/
def attrGetD (attrs : List (String × String)) (key defv : String) : String :=
  match attrs.find? (fun p => p.1 = key) with
  | some p => p.2
  | none => defv

/-- A normalized transaction record, the dictionary shape produced by every
discovery strategy (`hash`, `height`, `timestamp`, addresses, amount/denom,
`fee`, `memo`, `success`, message `type`, events).  The purely diagnostic
`amount_display` string of the scan path is omitted: it is written but never
read by any downstream consumer. -/
structure Tx where
  hash : String
  type : String
  from_address : String
  to_address : String
  amount : String
  denom : String
  success : Bool
  timestamp : String
  height : String
  fee : String
  memo : String
  is_outbound : Bool
  events : List TxEvent
deriving DecidableEq, Repr

/-- The `TaxBitCategory` enumeration. -/
inductive TaxBitCategory where
  | INBOUND_BUY
  | INBOUND_INCOME
  | INBOUND_AIRDROP
  | INBOUND_STAKING_REWARD
  | INBOUND_STAKING_WITHDRAWAL
  | OUTBOUND_SELL
  | OUTBOUND_EXPENSE
  | OUTBOUND_FEE
  | OUTBOUND_STAKING_DEPOSIT
  | OUTBOUND_TRANSFER
  | SWAP_SWAP
  | INTERNAL_TRANSFER
  | IGNORE
deriving DecidableEq, Repr

open TaxBitCategory

/-- The `.value` string of each `TaxBitCategory` member. -/
def TaxBitCategory.val : TaxBitCategory → String
  | INBOUND_BUY => "Inbound > Buy"
  | INBOUND_INCOME => "Inbound > Income"
  | INBOUND_AIRDROP => "Inbound > Airdrop"
  | INBOUND_STAKING_REWARD => "Inbound > Staking Reward"
  | INBOUND_STAKING_WITHDRAWAL => "Inbound > Staking Withdrawal"
  | OUTBOUND_SELL => "Outbound > Sell"
  | OUTBOUND_EXPENSE => "Outbound > Expense"
  | OUTBOUND_FEE => "Outbound > Fee"
  | OUTBOUND_STAKING_DEPOSIT => "Outbound > Staking Deposit"
  | OUTBOUND_TRANSFER => "Outbound > Transfer"
  | SWAP_SWAP => "Swap > Swap"
  | INTERNAL_TRANSFER => "Internal Transfer"
  | IGNORE => "Ignore"

/-- Guard of the staking-deposit branch of `classify_transaction`. -/
def stakingDepositMarker (tx : Tx) : Bool :=
  strContains tx.type "MsgDelegate"
    || strContains tx.type "/cosmos.staking.v1beta1.MsgDelegate"
    || tx.events.any (fun e => e.type = "delegate")

/-- Guard of the staking-reward branch of `classify_transaction`. -/
def stakingRewardMarker (tx : Tx) : Bool :=
  strContains tx.type "MsgWithdrawDelegatorReward"
    || strContains tx.type "/cosmos.distribution.v1beta1.MsgWithdrawDelegatorReward"
    || tx.events.any (fun e => e.type = "withdraw_rewards")

/-- Guard of the staking-withdrawal branch of `classify_transaction`. -/
def stakingWithdrawalMarker (tx : Tx) : Bool :=
  strContains tx.type "MsgUndelegate"
    || strContains tx.type "/cosmos.staking.v1beta1.MsgUndelegate"
    || tx.events.any (fun e => e.type = "unbond")

/-- Guard of the redelegate branch of `classify_transaction`. -/
def redelegateMarker (tx : Tx) : Bool :=
  strContains tx.type "MsgBeginRedelegate"
    || strContains tx.type "/cosmos.staking.v1beta1.MsgBeginRedelegate"
    || tx.events.any (fun e => e.type = "redelegate")

/-- Guard of the bank-transfer branch of `classify_transaction`. -/
def bankTransferMarker (tx : Tx) : Bool :=
  strContains tx.type "MsgSend"
    || strContains tx.type "/cosmos.bank.v1beta1.MsgSend"
    || tx.events.any (fun e => e.type = "transfer")

/-- Guard of the EVM branch of `classify_transaction`. -/
def evmMarker (tx : Tx) : Bool :=
  strContains tx.type "MsgEthereumTx" || strContains tx.type "/ethermint.evm.v1.MsgEthereumTx"

/-- Guard of the IBC branch of `classify_transaction`. -/
def ibcMarker (tx : Tx) : Bool :=
  strContains tx.type "MsgTransfer"
    || strContains tx.type "/ibc.applications.transfer.v1.MsgTransfer"
    || tx.events.any (fun e => e.type = "ibc_transfer")

/-- Guard of the governance branch of `classify_transaction`. -/
def governanceMarker (tx : Tx) : Bool :=
  strContains tx.type "MsgVote"
    || strContains tx.type "MsgSubmitProposal"
    || strContains tx.type "MsgDeposit"

/-- `TaxBitService._classify_evm_transaction`: the first event whose type
contains `ethereum_tx` decides; a non-`0x` non-empty recipient means a
contract interaction (`Swap`), anything else an outbound transfer. -/
def classify_evm_transaction (tx : Tx) : TaxBitCategory :=
  match tx.events.find? (fun e => strContains e.type "ethereum_tx") with
  | some e =>
    let recipient := attrGet e.attributes "recipient"
    if recipient ≠ "" ∧ strStartsWith recipient "0x" = false then SWAP_SWAP
    else OUTBOUND_TRANSFER
  | none => OUTBOUND_TRANSFER

/-- `TaxBitService.classify_transaction`: the fixed precedence chain over the
message-type tag and the event types. -/
def classify_transaction (tx : Tx) : TaxBitCategory :=
  if stakingDepositMarker tx then OUTBOUND_STAKING_DEPOSIT
  else if stakingRewardMarker tx then INBOUND_STAKING_REWARD
  else if stakingWithdrawalMarker tx then INBOUND_STAKING_WITHDRAWAL
  else if redelegateMarker tx then INTERNAL_TRANSFER
  else if bankTransferMarker tx then OUTBOUND_TRANSFER
  else if evmMarker tx then classify_evm_transaction tx
  else if ibcMarker tx then OUTBOUND_TRANSFER
  else if governanceMarker tx then IGNORE
  else OUTBOUND_TRANSFER

/-- `TaxBitService._production_transaction_involves_address`.  The target is
lower-cased and stripped of every `0x` occurrence; the value's hex encoding is
probed with seven checks (full hex substring, raw-byte containment for
40-character targets, two protobuf-prefixed 8-character probes, the reversed
hex form, the 16-character leading fragment, and the text-encoded `0x` form).
Building the eager check list raises `ValueError` — caught, yielding `False` —
when a 40-character target is not valid hex. -/
def production_transaction_involves_address (tx_data : List Byte) (target_address : String) :
    Bool :=
  let target_clean := pyStrReplace (asciiLower target_address) "0x" ""
  let tx_hex := asciiLower (bytesToHex tx_data)
  if target_clean.toList.length = 40 ∧ (bytesFromHex? target_clean).isNone then false
  else
    strContains tx_hex target_clean
      || (match (if target_clean.toList.length = 40 then bytesFromHex? target_clean else none)
            with
          | some bs => seqContains tx_data bs
          | none => false)
      || strContains tx_hex ("08" ++ strTake target_clean 8)
      || strContains tx_hex ("12" ++ strTake target_clean 8)
      || strContains tx_hex (strRev target_clean)
      || strContains tx_hex (strTake target_clean 16)
      || strContains tx_hex ("307800" ++ target_clean)

/-- Fuel-driven scan of `re.findall(r'[0-9a-fA-F]{40}', s)`: at each position
either a 40-hex-character match is consumed whole, or the scan advances one
character (the exact semantics of `findall` for this fixed-width pattern). -/
def findall40hexAux : ℕ → List Char → List String
  | 0, _ => []
  | _ + 1, [] => []
  | fuel + 1, c :: cs =>
    let w := (c :: cs).take 40
    if w.length = 40 ∧ w.all isHexChar then
      String.mk w :: findall40hexAux fuel ((c :: cs).drop 40)
    else
      findall40hexAux fuel cs

/-- `re.findall(r'[0-9a-fA-F]{40}', s)`. -/
def findall40hex (s : String) : List String :=
  findall40hexAux s.toList.length s.toList

/-- The block-list applied to candidate 40-hex windows. -/
def excludedPatterns : List String :=
  ["65766d", "657468", "6d7367", "000000", "ffffff"]

/-- The validity filter on a candidate 40-hex window: not all zeros, not all
`f`, no block-listed fragment, more than three distinct characters. -/
def validAddressWindow (addr : String) : Bool :=
  let addr_lower := asciiLower addr
  !(addr.toList.all (fun c => c = '0'))
    && !(addr_lower.toList.all (fun c => c = 'f'))
    && !(excludedPatterns.any (fun p => strContains addr_lower p))
    && decide (3 < addr_lower.toList.dedup.length)

/-- Order-preserving case-insensitive deduplication of candidate addresses. -/
def dedupByLowerAux (seen : List String) : List String → List String
  | [] => []
  | a :: as =>
    if seen.contains (asciiLower a) then dedupByLowerAux seen as
    else a :: dedupByLowerAux (asciiLower a :: seen) as

/-- `TaxBitService._extract_real_evm_addresses`: find candidate 40-hex
windows in the value's hex form, filter and deduplicate them, split them into
the (last) user match and the foreign rest, and pick the `(from, to)` pair by
the source's branch cascade. -/
def extract_real_evm_addresses (tx_data : List Byte) (user_address : String) :
    String × String :=
  let tx_hex := bytesToHex tx_data
  let user_clean := pyStrReplace (asciiLower user_address) "0x" ""
  let valid_addresses :=
    ((findall40hex tx_hex).filter validAddressWindow).map (fun a => "0x" ++ a)
  let unique_addresses := dedupByLowerAux [] valid_addresses
  let user_full := "0x" ++ user_clean
  let user_variations := [user_full, asciiLower user_address, asciiUpper user_address]
  let isUserMatch := fun (a : String) =>
    (user_variations.map asciiLower).contains (asciiLower a)
  let matching_user := (unique_addresses.filter isUserMatch).getLast?
  let other_addresses := unique_addresses.filter (fun a => !(isUserMatch a))
  match matching_user, other_addresses with
  | some m, o :: _ => (m, o)
  | some m, [] => (m, "")
  | none, o1 :: o2 :: _ => (o1, o2)
  | none, [o1] => (o1, "")
  | none, [] =>
    match valid_addresses with
    | v1 :: v2 :: _ => (v1, v2)
    | [v1] => (v1, "")
    | [] => ("", "")

/-- Big-endian `struct.unpack('>Q', w)` on an 8-byte window. -/
def bytesToNatBE (bs : List Byte) : ℕ :=
  bs.foldl (fun acc b => acc * 256 + b.val) 0

/-- Little-endian `struct.unpack('<Q', w)`. -/
def bytesToNatLE (bs : List Byte) : ℕ :=
  bytesToNatBE bs.reverse

/-- Upper bound of the plausible-amount filter: one million tokens at
18-decimal precision. -/
def amountUpperBound : ℕ := 1000000 * 10 ^ 18

/-- Collection loop of `_production_extract_amounts`: each 8-byte window
contributes its big-endian then its little-endian reading when in range; the
loop stops once ten candidates have accumulated. -/
def collectAmounts : List (List Byte) → List String → List String
  | [], acc => acc
  | w :: ws, acc =>
    let be := bytesToNatBE w
    let le := bytesToNatLE w
    let acc := if 1 ≤ be ∧ be ≤ amountUpperBound then acc ++ [toString be] else acc
    let acc := if 1 ≤ le ∧ le ≤ amountUpperBound then acc ++ [toString le] else acc
    if 10 ≤ acc.length then acc else collectAmounts ws acc

/-- First-occurrence deduplication of the collected amount strings.  The
source applies `list(set(amounts))`, whose CPython iteration order depends on
the per-process string hashing; a fixed first-occurrence order is used here
(no claim below depends on the order of this list). -/
def dedupFirst (seen : List String) : List String → List String
  | [] => []
  | a :: as =>
    if seen.contains a then dedupFirst seen as else a :: dedupFirst (a :: seen) as

/-- `TaxBitService._production_extract_amounts`: slide 8-byte windows over
`range(0, len(data) - 8)` (the final byte is never covered, as in the
source), filter both endian readings into the plausible range, deduplicate. -/
def production_extract_amounts (data : List Byte) : List String :=
  let windows := (List.range (data.length - 8)).map (fun i => (data.drop i).take 8)
  dedupFirst [] (collectAmounts windows [])

/-- `TaxBitService._transaction_in_date_range`: accepts every transaction —
both the bounds-absent branch and the bounds-present branch return `True`
(the source has no block timestamps for scanned records). -/
def transaction_in_date_range (_tx : Tx) (start_date end_date : Option PyDateTime) : Bool :=
  if start_date.isNone ∧ end_date.isNone then true else true

/-- `TaxBitService._production_parse_leveldb_transaction`.  The record's hash
is the SHA-256 hex digest of the key (passed as the opaque `digest`
parameter), addresses and amounts come from the extractors, `success`,
`height` and `fee` are fixed constants, and the timestamp is the wall clock
`now` serialized with `isoformat()`.  No branch of the Python body can raise,
so the `None` failure path is unreachable and the model is total. -/
def production_parse_leveldb_transaction (digest : List Byte → String) (now : PyDateTime)
    (key value : List Byte) (user_address : String) : Tx :=
  let tx_hash := digest key
  let fromTo := extract_real_evm_addresses value user_address
  let from_addr := fromTo.1
  let to_addr := fromTo.2
  let amounts := production_extract_amounts value
  let primary_amount := amounts.headD "0"
  let is_outbound :=
    if from_addr ≠ "" then strContains (asciiLower from_addr) (asciiLower user_address)
    else false
  { hash := "0x" ++ tx_hash
    type := "MsgEthereumTx"
    from_address := if from_addr ≠ "" then from_addr else user_address
    to_address := if to_addr ≠ "" then to_addr else ""
    amount := primary_amount
    denom := "cint"
    success := true
    timestamp := printIso { now with utc := true }
    height := "0"
    fee := "0"
    memo := "LevelDB extraction - " ++ toString value.length ++ " bytes"
    is_outbound := is_outbound
    events := [⟨"ethereum_tx",
      [("from", from_addr), ("to", to_addr), ("amount", primary_amount)]⟩] }

/-- Scan loop of `_fetch_transactions_from_leveldb`: every record is tested
with the candidate matcher; matches are parsed and passed through the (vacuous)
date-range check; the loop stops at 50 kept transactions or 15000 scanned
records, the caps being tested after every record. -/
def leveldbScanLoop (digest : List Byte → String) (now : PyDateTime) (address : String)
    (start_date end_date : Option PyDateTime) :
    List (List Byte × List Byte) → ℕ → List Tx → List Tx
  | [], _, txs => txs
  | (key, value) :: rest, scanned, txs =>
    let scanned := scanned + 1
    let txs :=
      if production_transaction_involves_address value address then
        let tx := production_parse_leveldb_transaction digest now key value address
        if transaction_in_date_range tx start_date end_date then txs ++ [tx] else txs
      else txs
    if 50 ≤ txs.length then txs
    else if 15000 ≤ scanned then txs
    else leveldbScanLoop digest now address start_date end_date rest scanned txs

/-- `TaxBitService._fetch_transactions_from_leveldb`.  The store handle is
`none` when `get_leveldb_connection` failed (store unavailable), otherwise the
finite key/value sequence the LevelDB iterator yields.  An unopenable or empty
store yields the empty list, never an error. -/
def fetch_transactions_from_leveldb (digest : List Byte → String) (now : PyDateTime)
    (store : Option (List (List Byte × List Byte))) (address : String)
    (start_date end_date : Option PyDateTime) : List Tx :=
  match store with
  | none => []
  | some entries =>
    if entries = [] then []
    else leveldbScanLoop digest now address start_date end_date entries 0 []

/-- `TaxBitService.fetch_transactions_from_db` (production mode): LevelDB
only, an empty scan falling through to the empty list. -/
def fetch_transactions_from_db (digest : List Byte → String) (now : PyDateTime)
    (store : Option (List (List Byte × List Byte))) (address : String)
    (start_date end_date : Option PyDateTime) : List Tx :=
  fetch_transactions_from_leveldb digest now store address start_date end_date

/-- Hash-based first-occurrence deduplication of
`_deduplicate_and_filter_transactions`; a record with an empty (falsy) hash
is dropped outright. -/
def dedupByHash (seen : List String) : List Tx → List Tx
  | [] => []
  | t :: ts =>
    if t.hash ≠ "" ∧ !(seen.contains t.hash) then t :: dedupByHash (t.hash :: seen) ts
    else dedupByHash seen ts

/-- Lexicographic (code-point) strict comparison of character lists — the
order Python uses on `str`, both for the sort key below and for the spec's
claimed hash tie-break. -/
def strLtB : List Char → List Char → Bool
  | [], [] => false
  | [], _ :: _ => true
  | _ :: _, [] => false
  | a :: as, b :: bs =>
    if a.toNat < b.toNat then true
    else if b.toNat < a.toNat then false
    else strLtB as bs

/-- Sort relation of `transactions.sort(key=lambda x: x.get('timestamp', ''),
reverse=True)`: non-strict timestamp-descending (the key is not less than the
next key).  Inserting each arrival into the sorted prefix under this relation
reproduces CPython's stable descending sort exactly.  -/
def tsGe (a b : Tx) : Prop :=
  strLtB a.timestamp.toList b.timestamp.toList = false

instance : DecidableRel tsGe := fun a b =>
  inferInstanceAs (Decidable (strLtB a.timestamp.toList b.timestamp.toList = false))

/-- Retention test of the date filter in
`_deduplicate_and_filter_transactions`: an empty timestamp or an unparseable
timestamp skips the record, a comparison between mismatched aware/naive
datetimes raises `TypeError` — caught, skipping the record — and otherwise
the inclusive bounds are applied. -/
def dateFilterKeep (start_date end_date : Option PyDateTime) (tx : Tx) : Bool :=
  if tx.timestamp = "" then false
  else
    match parseIso (pyStrReplace tx.timestamp "Z" "+00:00") with
    | none => false
    | some t =>
      (match start_date with
       | some sd => t.utc = sd.utc && !(dtLt t sd)
       | none => true)
        && (match end_date with
            | some ed => t.utc = ed.utc && !(dtLt ed t)
            | none => true)

/-- `TaxBitService._deduplicate_and_filter_transactions`: first-occurrence
deduplication by hash, stable timestamp-descending sort, then the inclusive
date filter when either bound is supplied. -/
def deduplicate_and_filter_transactions (transactions : List Tx)
    (start_date end_date : Option PyDateTime) : List Tx :=
  let unique_transactions := dedupByHash [] transactions
  let sorted := List.insertionSort tsGe unique_transactions
  if start_date.isSome || end_date.isSome then
    sorted.filter (dateFilterKeep start_date end_date)
  else sorted

/-- `TaxBitService.fetch_transactions_by_address`: the LevelDB result is
returned as-is when non-empty; otherwise the RPC fallback candidates (the
`rpc` parameter, §model conventions) are deduplicated and date-filtered. -/
def fetch_transactions_by_address (digest : List Byte → String) (now : PyDateTime)
    (store : Option (List (List Byte × List Byte))) (rpc : List Tx) (address : String)
    (start_date end_date : Option PyDateTime) : List Tx :=
  let transactions := fetch_transactions_from_db digest now store address start_date end_date
  if transactions ≠ [] then transactions
  else deduplicate_and_filter_transactions rpc start_date end_date

/-- A `TaxBitTransaction` as initialised by its constructor.  String-typed
fields collapse Python `None` and `''` (both serialize to an empty CSV
field); float-typed fields keep the `None`/value distinction as an
`Option ℚ`. -/
structure TaxBitRow where
  timestamp : String := ""
  txid : String := ""
  source_name : String := "Cintara"
  from_wallet_address : String := ""
  to_wallet_address : String := ""
  category : String := ""
  in_currency : String := ""
  in_amount : Option ℚ := none
  in_currency_fiat : String := ""
  in_amount_fiat : Option ℚ := none
  out_currency : String := ""
  out_amount : Option ℚ := none
  out_currency_fiat : String := ""
  out_amount_fiat : Option ℚ := none
  fee_currency : String := ""
  fee : Option ℚ := none
  fee_currency_fiat : String := ""
  fee_fiat : Option ℚ := none
  memo : String := ""
  status : String := "Completed"
deriving DecidableEq, Repr

/-- `TaxBitService._parse_amount_with_denom`: `re.match` of
`(\d+)([a-zA-Z][a-zA-Z0-9]*)` — a leading digit run followed by a letter and
a maximal alphanumeric run — falling back to `(amount_str, 'ucint')`. -/
def parse_amount_with_denom (amount_str : String) : String × String :=
  let (ds, rest) := takeDigits amount_str.toList
  match ds, rest with
  | _ :: _, c :: cs =>
    if c.isAlpha then
      let denomRun := (c :: cs).takeWhile (fun ch => ch.isAlpha ∨ isDigitChar ch)
      (String.mk ds, String.mk denomRun)
    else (amount_str, "ucint")
  | _, _ => (amount_str, "ucint")

/-- The timestamp normalisation block of `convert_transaction`: an absent or
empty timestamp leaves the field empty; otherwise `fromisoformat` after `Z`
replacement, then the `strptime('%Y-%m-%dT%H:%M:%S.%fZ')` fallback, then the
current wall clock, each serialized through `format_timestamp`. -/
def convertTimestampField (now : PyDateTime) (ts : String) : String :=
  if ts = "" then ""
  else
    match parseIso (pyStrReplace ts "Z" "+00:00") with
    | some d => format_timestamp d
    | none =>
      match parse_strptime_fz ts with
      | some d => format_timestamp { d with utc := true }
      | none => format_timestamp now

/-- `TaxBitService._process_staking_transaction`: the first event whose type
matches the category's staking event is applied, then the loop breaks. -/
def process_staking_transaction (tx : Tx) (row : TaxBitRow) (category : TaxBitCategory) :
    TaxBitRow :=
  let evMatches := fun (ev : TxEvent) =>
    (ev.type = "delegate" ∧ category = OUTBOUND_STAKING_DEPOSIT)
      ∨ (ev.type = "withdraw_rewards" ∧ category = INBOUND_STAKING_REWARD)
      ∨ (ev.type = "unbond" ∧ category = INBOUND_STAKING_WITHDRAWAL)
  match tx.events.find? (fun ev => decide (evMatches ev)) with
  | none => row
  | some ev =>
    let amount_str := attrGetD ev.attributes "amount" "0"
    if ev.type = "delegate" then
      if amount_str ≠ "" then
        let ad := parse_amount_with_denom amount_str
        let cc := convert_amount ad.1 ad.2
        { row with out_currency := cc.2, out_amount := some cc.1,
                   from_wallet_address := attrGet ev.attributes "delegator",
                   to_wallet_address := attrGet ev.attributes "validator" }
      else row
    else
      if amount_str ≠ "" then
        let ad := parse_amount_with_denom amount_str
        let cc := convert_amount ad.1 ad.2
        { row with in_currency := cc.2, in_amount := some cc.1,
                   to_wallet_address := attrGet ev.attributes "delegator",
                   from_wallet_address := attrGet ev.attributes "validator" }
      else row

/-- `TaxBitService._process_transfer_transaction`: the first `transfer` event
is applied, then the loop breaks. -/
def process_transfer_transaction (tx : Tx) (row : TaxBitRow) (category : TaxBitCategory) :
    TaxBitRow :=
  match tx.events.find? (fun ev => ev.type = "transfer") with
  | none => row
  | some ev =>
    let amount_str := attrGetD ev.attributes "amount" "0"
    if amount_str ≠ "" then
      let ad := parse_amount_with_denom amount_str
      let cc := convert_amount ad.1 ad.2
      let row := { row with from_wallet_address := attrGet ev.attributes "sender",
                            to_wallet_address := attrGet ev.attributes "recipient" }
      if category = OUTBOUND_TRANSFER then
        { row with out_currency := cc.2, out_amount := some cc.1 }
      else
        { row with in_currency := cc.2, in_amount := some cc.1 }
    else row

/-- `TaxBitService._process_swap_transaction`: collect every `transfer` event
with a non-empty amount; with at least two, the first is the disposed side
and the second the acquired side. -/
def process_swap_transaction (tx : Tx) (row : TaxBitRow) : TaxBitRow :=
  let transfers := tx.events.filterMap (fun ev =>
    if ev.type = "transfer" then
      let amount_str := attrGetD ev.attributes "amount" "0"
      if amount_str ≠ "" then
        let ad := parse_amount_with_denom amount_str
        some (convert_amount ad.1 ad.2)
      else none
    else none)
  match transfers with
  | t0 :: t1 :: _ =>
    { row with out_currency := t0.2, out_amount := some t0.1,
               in_currency := t1.2, in_amount := some t1.1 }
  | _ => row

/-- `TaxBitService._process_generic_transaction`. -/
def process_generic_transaction (tx : Tx) (row : TaxBitRow) (category : TaxBitCategory) :
    TaxBitRow :=
  if tx.amount ≠ "" ∧ tx.amount ≠ "0" then
    let cc := convert_amount tx.amount tx.denom
    let row := { row with from_wallet_address := tx.from_address,
                          to_wallet_address := tx.to_address }
    if strStartsWith category.val "Inbound" then
      { row with in_currency := cc.2, in_amount := some cc.1 }
    else if strStartsWith category.val "Outbound" then
      { row with out_currency := cc.2, out_amount := some cc.1 }
    else row
  else row

/-- `TaxBitService._process_transaction_details`: dispatch on the category. -/
def process_transaction_details (tx : Tx) (row : TaxBitRow) (category : TaxBitCategory) :
    TaxBitRow :=
  if category = OUTBOUND_STAKING_DEPOSIT ∨ category = INBOUND_STAKING_WITHDRAWAL
      ∨ category = INBOUND_STAKING_REWARD then
    process_staking_transaction tx row category
  else if category = OUTBOUND_TRANSFER ∨ category = INBOUND_BUY then
    process_transfer_transaction tx row category
  else if category = SWAP_SWAP then
    process_swap_transaction tx row
  else
    process_generic_transaction tx row category

/-- `TaxBitService._process_transaction_fee`: a non-empty, non-zero fee is
converted with the `ucint` denomination. -/
def process_transaction_fee (tx : Tx) (row : TaxBitRow) : TaxBitRow :=
  if tx.fee ≠ "" ∧ tx.fee ≠ "0" then
    let cc := convert_amount tx.fee "ucint"
    { row with fee_currency := cc.2, fee := some cc.1 }
  else row

/-- `TaxBitService.convert_transaction`: identifier, normalized timestamp,
category, per-category details, fee, memo and success-derived status. -/
def convert_transaction (now : PyDateTime) (tx : Tx) : TaxBitRow :=
  let row : TaxBitRow := {}
  let row := { row with txid := tx.hash }
  let row := { row with timestamp := convertTimestampField now tx.timestamp }
  let category := classify_transaction tx
  let row := { row with category := category.val }
  let row := process_transaction_details tx row category
  let row := process_transaction_fee tx row
  { row with memo := tx.memo,
             status := if tx.success then "Completed" else "Failed" }

/-- The 20 fixed CSV header names. -/
def TAXBIT_CSV_HEADERS : List String :=
  ["timestamp", "txid", "source_name", "from_wallet_address", "to_wallet_address",
   "category", "in_currency", "in_amount", "in_currency_fiat", "in_amount_fiat",
   "out_currency", "out_amount", "out_currency_fiat", "out_amount_fiat",
   "fee_currency", "fee", "fee_currency_fiat", "fee_fiat", "memo", "status"]

/-- Minimal quoting of one CSV field (`csv.QUOTE_MINIMAL` with the default
dialect): fields containing the delimiter, the quote character or a
line-terminator character are wrapped in doubled quotes. -/
def csvField (s : String) : String :=
  if strContains s "," || strContains s "\"" || strContains s "\r" || strContains s "\n" then
    "\"" ++ pyStrReplace s "\"" "\"\"" ++ "\""
  else s

/-- One CSV record line with the default `\r\n` terminator. -/
def csvLine (fields : List String) : String :=
  String.intercalate "," (fields.map csvField) ++ "\r\n"

/-- The 20 values of one row in header order.  A `None` value serializes as
the empty field; a float value is rendered by the opaque `frepr` parameter
(Python `str` on a float). -/
def rowStrings (frepr : ℚ → String) (r : TaxBitRow) : List String :=
  let amt := fun (v : Option ℚ) => match v with | some q => frepr q | none => ""
  [r.timestamp, r.txid, r.source_name, r.from_wallet_address, r.to_wallet_address,
   r.category, r.in_currency, amt r.in_amount, r.in_currency_fiat, amt r.in_amount_fiat,
   r.out_currency, amt r.out_amount, r.out_currency_fiat, amt r.out_amount_fiat,
   r.fee_currency, amt r.fee, r.fee_currency_fiat, amt r.fee_fiat, r.memo, r.status]

/-- `TaxBitService.generate_csv`: the header record first, then one record
per transaction. -/
def generate_csv (frepr : ℚ → String) (transactions : List TaxBitRow) : String :=
  csvLine TAXBIT_CSV_HEADERS
    ++ String.join (transactions.map (fun t => csvLine (rowStrings frepr t)))

/-- `TaxBitService.export_address_transactions`: fetch, convert, serialize —
an empty result yields the headers-only CSV. -/
def export_address_transactions (digest : List Byte → String) (frepr : ℚ → String)
    (now : PyDateTime) (store : Option (List (List Byte × List Byte))) (rpc : List Tx)
    (address : String) (start_date end_date : Option PyDateTime) : String :=
  let transactions := fetch_transactions_by_address digest now store rpc address
    start_date end_date
  if transactions = [] then generate_csv frepr []
  else generate_csv frepr (transactions.map (convert_transaction now))

/-- Claim-side predicate (C2, stated from the spec's words): the record's
timestamp parses and lies within the inclusive `[start, end]` window. -/
def claimTsInRange (s e : PyDateTime) (tx : Tx) : Bool :=
  match parseIso (pyStrReplace tx.timestamp "Z" "+00:00") with
  | some t => dtLe s t && dtLe t e
  | none => false

/-- Claim-side matcher (C6, stated from the spec's words): (a) the normalized
target occurs in the hex encoding of the value, or (b) the decoded raw
address bytes occur contiguously in the value. -/
def claimMatchesAB (value : List Byte) (target : String) : Bool :=
  let tc := pyStrReplace (asciiLower target) "0x" ""
  strContains (bytesToHex value) tc
    || (match bytesFromHex? tc with
        | some bs => seqContains value bs
        | none => false)

/-- The fixed 20-column header line of every export, with the CSV module's
`\r\n` terminator. -/
def csvHeaderLine : String :=
  "timestamp,txid,source_name,from_wallet_address,to_wallet_address,category,in_currency,in_amount,in_currency_fiat,in_amount_fiat,out_currency,out_amount,out_currency_fiat,out_amount_fiat,fee_currency,fee,fee_currency_fiat,fee_fiat,memo,status\r\n"

/-- Concrete 40-hex-character address body used by the counterexamples. -/
def cAddrHex : String := "a1b2c3d4e5f6a7b8c9d0a1b2c3d4e5f6a7b8c9d0"

/-- A concrete `0x` wallet address. -/
def cAddr : String := "0x" ++ cAddrHex

/-- A concrete stored value: exactly the 20 raw bytes of `cAddrHex`. -/
def cValue : List Byte := (bytesFromHex? cAddrHex).getD []

/-- A concrete two-byte store key. -/
def cKey : List Byte := (bytesFromHex? "0001").getD []

/-- A concrete stand-in for the SHA-256 hex digest parameter. -/
def cDigest : List Byte → String := fun _ => "aa"

/-- A concrete stand-in for the float-repr parameter. -/
def cFrepr : ℚ → String := fun _ => ""

/-- A concrete run clock. -/
def cNow1 : PyDateTime := ⟨2025, 6, 1, 0, 0, 0, 0, true⟩

/-- A later run clock for the second export run. -/
def cNow2 : PyDateTime := ⟨2025, 6, 2, 0, 0, 0, 0, true⟩

/-- A concrete export window start, well before the run clock. -/
def cStart : PyDateTime := ⟨2020, 1, 1, 0, 0, 0, 0, true⟩

/-- A concrete export window end, also before the run clock. -/
def cEnd : PyDateTime := ⟨2020, 12, 31, 0, 0, 0, 0, true⟩

/-- A concrete one-record key-value store whose only value embeds `cAddr`. -/
def cStore : List (List Byte × List Byte) := [(cKey, cValue)]

/-- A target address that does not occur in `cValue`. -/
def cUser7 : String := "0x1111111111111111111111111111111111111111"

/-- A concrete stored value holding only the first 8 raw bytes of the target
address (a partial-pattern hit for the matcher, not a full one). -/
def cVal6 : List Byte := (bytesFromHex? "a1b2c3d4e5f6a7b8").getD []

/-- A concrete transaction whose message type is a redelegation. -/
def cRedelegateTx : Tx :=
  { hash := "0xcc", type := "MsgBeginRedelegate", from_address := "", to_address := "",
    amount := "0", denom := "cint", success := true, timestamp := "", height := "0",
    fee := "0", memo := "", is_outbound := false, events := [] }

/-- First-arriving transaction for the tie-break counterexample: the larger
hash. -/
def txB8 : Tx :=
  { hash := "0xbb", type := "t", from_address := "", to_address := "", amount := "0",
    denom := "cint", success := true, timestamp := "2024-01-01T00:00:00Z", height := "0",
    fee := "0", memo := "", is_outbound := false, events := [] }

/-- Second-arriving transaction with the same timestamp and the smaller
hash. -/
def txA8 : Tx :=
  { txB8 with hash := "0xaa" }

/-- A transaction retained by the RPC date filter for the C2 witness. -/
def cTxW : Tx :=
  { txB8 with timestamp := "2024-01-05T00:00:00Z" }

/-- Window start for the C2 witness. -/
def cStartW : PyDateTime := ⟨2024, 1, 1, 0, 0, 0, 0, true⟩

/-- Window end for the C2 witness. -/
def cEndW : PyDateTime := ⟨2024, 1, 31, 0, 0, 0, 0, true⟩
set_option maxRecDepth 40000
set_option exponentiation.threshold 3000

/-! Helper lemmas (shared across the claim theorems). -/

/-- `qMul` agrees with the field multiplication of `ℚ`. -/
theorem qMul_eq (a b : ℚ) : qMul a b = a * b := by
  rw [qMul, Rat.divInt_eq_div]
  push_cast
  rw [← div_mul_div_comm, Rat.num_div_den, Rat.num_div_den]

/-- `qNeg` agrees with the negation of `ℚ`. -/
theorem qNeg_eq (a : ℚ) : qNeg a = -a := by
  rw [qNeg, Rat.divInt_eq_div]
  push_cast
  rw [neg_div, Rat.num_div_den]

/-- `qDiv` agrees with the field division of `ℚ`. -/
theorem qDiv_eq (a b : ℚ) : qDiv a b = a / b := by
  rcases eq_or_ne b 0 with hb | hb
  · subst hb
    simp [qDiv, Rat.divInt_eq_div]
  · have hbn : (b.num : ℚ) ≠ 0 := Int.cast_ne_zero.mpr (Rat.num_ne_zero.mpr hb)
    have had : ((a.den : ℚ)) ≠ 0 := Nat.cast_ne_zero.mpr (Rat.den_ne_zero a)
    have hbd : ((b.den : ℚ)) ≠ 0 := Nat.cast_ne_zero.mpr (Rat.den_ne_zero b)
    have ha' : (a.num : ℚ) = a * a.den := (div_eq_iff had).mp (Rat.num_div_den a)
    have hb' : (b.num : ℚ) = b * b.den := (div_eq_iff hbd).mp (Rat.num_div_den b)
    rw [qDiv, Rat.divInt_eq_div]
    push_cast
    rw [div_eq_div_iff (mul_ne_zero had hbn) hb, ha', hb']
    ring

/-- `qAbs` agrees with the absolute value of `ℚ`. -/
theorem qAbs_eq (a : ℚ) : qAbs a = |a| := by
  unfold qAbs
  split
  · rw [qNeg_eq, abs_of_neg]
    exact Rat.num_neg.mp (by assumption)
  · rw [abs_of_nonneg]
    exact le_of_not_lt fun hlt => (by assumption : ¬ a.num < 0) (Rat.num_neg.mpr hlt)

/-- A string is unchanged by appending the empty string. -/
theorem strAppendEmpty (s : String) : s ++ "" = s := by
  cases s with
  | mk data => show String.mk (data ++ []) = String.mk data
               rw [List.append_nil]

/-- Every list starts with itself followed by anything. -/
theorem listStartsWith_append [DecidableEq α] (l m : List α) :
    listStartsWith (l ++ m) l = true := by
  induction l with
  | nil => cases m <;> rfl
  | cons a as ih => simp [listStartsWith, ih]

/-- The empty export is exactly the header line. -/
theorem generate_csv_nil (frepr : ℚ → String) : generate_csv frepr [] = csvHeaderLine := by
  show csvLine TAXBIT_CSV_HEADERS ++ String.join [] = csvHeaderLine
  rw [show String.join [] = "" from rfl, strAppendEmpty]
  decide

/-- Claim C1 counterexample: with the 0-decimal fallback denomination the
converter's result for raw amount `999999999999999999` does not satisfy the
claimed exact round-trip — the float cast rounds the value to `10 ^ 18`. -/
theorem c1_counterexample :
    ¬ ((convert_amount "999999999999999999" "zzz").1
        * 10 ^ (get_token_info "zzz").decimals = (999999999999999999 : ℚ)) := by
  have h1 : (convert_amount "999999999999999999" "zzz").1 = mkRat 1000000000000000000 1 := by
    decide
  have h2 : (get_token_info "zzz").decimals = 0 := by decide
  rw [h1, h2, Rat.mkRat_one]
  norm_num

/-- Claim C1 amended: the converter computes the quotient exactly with
`Decimal` arithmetic but casts the result to a binary64 float, so the
round-trip `display * 10 ^ decimals = raw` holds only when the quotient is
exactly representable: among the claim's cited inputs it holds for raw `1`
at 0 decimals, while raw `999999999999999999` at 0 decimals yields `10 ^ 18`
and raw `1` at 6 or 18 decimals yields a non-representable quotient whose
rounding breaks the round-trip. -/
theorem c1_amended :
    (convert_amount "1" "zzz").1 * 10 ^ (get_token_info "zzz").decimals = (1 : ℚ)
      ∧ (convert_amount "999999999999999999" "zzz").1 = 10 ^ 18
      ∧ (convert_amount "1" "ucint").1 * 10 ^ (get_token_info "ucint").decimals ≠ (1 : ℚ)
      ∧ (convert_amount "1" "cint").1 * 10 ^ (get_token_info "cint").decimals ≠ (1 : ℚ) := by
  refine ⟨?_, ?_, ?_, ?_⟩
  · have h1 : (convert_amount "1" "zzz").1 = mkRat 1 1 := by decide
    have h2 : (get_token_info "zzz").decimals = 0 := by decide
    rw [h1, h2, Rat.mkRat_one]
    norm_num
  · have h1 : (convert_amount "999999999999999999" "zzz").1 = mkRat 1000000000000000000 1 := by
      decide
    rw [h1, Rat.mkRat_one]
    norm_num
  · have h1 : (convert_amount "1" "ucint").1
        = Rat.divInt 4722366482869645 4722366482869645213696 := by decide
    have h2 : (get_token_info "ucint").decimals = 6 := by decide
    rw [h1, h2, Rat.divInt_eq_div]
    norm_num
  · have h1 : (convert_amount "1" "cint").1
        = Rat.divInt 1298074214633707 1298074214633706907132624082305024 := by decide
    have h2 : (get_token_info "cint").decimals = 18 := by decide
    rw [h1, h2, Rat.divInt_eq_div]
    norm_num

/-- Claim C2 counterexample: with both bounds supplied (the year-2020 window),
the scan strategy still contributes a transaction stamped with the 2025 run
clock, so not every returned row lies within `[start_date, end_date]`. -/
theorem c2_counterexample :
    (fetch_transactions_by_address cDigest cNow1 (some cStore) [] cAddr
        (some cStart) (some cEnd)).all (claimTsInRange cStart cEnd) = false
      ∧ fetch_transactions_by_address cDigest cNow1 (some cStore) [] cAddr
          (some cStart) (some cEnd) ≠ [] := by
  constructor
  · decide
  · decide

/-- Claim C2 amended: the inclusive date filter holds for every transaction
retained by the RPC merge path (`_deduplicate_and_filter_transactions`); the
raw scan path applies no date filter (its range check accepts everything), so
its rows may fall outside the window. -/
theorem c2_amended (txs : List Tx) (s e : PyDateTime) (tx : Tx)
    (h : tx ∈ deduplicate_and_filter_transactions txs (some s) (some e)) :
    ∃ t, parseIso (pyStrReplace tx.timestamp "Z" "+00:00") = some t
      ∧ dtLe s t = true ∧ dtLe t e = true := by
  have hk : dateFilterKeep (some s) (some e) tx = true := by
    unfold deduplicate_and_filter_transactions at h
    simp only [Option.isSome_some, Bool.or_self, if_true] at h
    exact (List.mem_filter.mp h).2
  unfold dateFilterKeep at hk
  split at hk
  · simp at hk
  · rcases hp : parseIso (pyStrReplace tx.timestamp "Z" "+00:00") with _ | t
    · rw [hp] at hk
      simp at hk
    · rw [hp] at hk
      simp only [Bool.and_eq_true] at hk
      obtain ⟨⟨-, hs1⟩, -, hs2⟩ := hk
      refine ⟨t, rfl, ?_, ?_⟩
      · simpa [dtLe] using hs1
      · simpa [dtLe] using hs2

/-- Claim C2 witness: a concrete transaction retained by the merge path for a
January-2024 window indeed parses inside the window. -/
theorem c2_amended_witness :
    ∃ t, parseIso (pyStrReplace cTxW.timestamp "Z" "+00:00") = some t
      ∧ dtLe cStartW t = true ∧ dtLe t cEndW = true :=
  c2_amended [cTxW] cStartW cEndW cTxW (by decide)

/-- Exporting with an unopenable store and no RPC candidates yields the empty
CSV regardless of the run clock. -/
theorem export_none_nil (digest : List Byte → String) (frepr : ℚ → String)
    (now : PyDateTime) (address : String) (s e : Option PyDateTime) :
    export_address_transactions digest frepr now none [] address s e
      = generate_csv frepr [] := by
  cases s <;> cases e <;> rfl

set_option maxHeartbeats 4000000 in
/-- Claim C3 counterexample: two export runs over the unchanged one-record
store, differing only in the wall clock, produce different CSV bytes — each
scan row's timestamp is the clock reading of its own run.  The digest and
float-repr parameters are fixed, so the difference comes from the clock
alone. -/
theorem c3_counterexample :
    export_address_transactions cDigest cFrepr cNow1 (some cStore) [] cAddr none none
      ≠ export_address_transactions cDigest cFrepr cNow2 (some cStore) [] cAddr none none := by
  decide

/-- Claim C3 amended: the extractors and the whole pipeline are pure functions
of `(digest, frepr, clock, store, rpc, address, window)`, but byte-identity
across runs at different times holds only when no transaction is discovered
(here: unopenable store and no RPC candidates, the header-only case); when the
scan contributes a row its timestamp is the run's wall clock, which breaks
byte-identity (see the counterexample). -/
theorem c3_amended (digest : List Byte → String) (frepr : ℚ → String)
    (now1 now2 : PyDateTime) (address : String) (s e : Option PyDateTime) :
    export_address_transactions digest frepr now1 none [] address s e
      = export_address_transactions digest frepr now2 none [] address s e := by
  rw [export_none_nil, export_none_nil]

/-- Claim C4: exporting with zero discovered transactions yields exactly the
20-column header line, and every generated CSV starts with that header line
regardless of the transaction sequence. -/
theorem c4_theorem (digest : List Byte → String) (frepr : ℚ → String)
    (now : PyDateTime) (address : String) (s e : Option PyDateTime)
    (rows : List TaxBitRow) :
    generate_csv frepr [] = csvHeaderLine
      ∧ strStartsWith (generate_csv frepr rows) csvHeaderLine = true
      ∧ export_address_transactions digest frepr now none [] address s e = csvHeaderLine := by
  refine ⟨generate_csv_nil frepr, ?_, ?_⟩
  · have hline : csvLine TAXBIT_CSV_HEADERS = csvHeaderLine := by decide
    show listStartsWith (generate_csv frepr rows).toList csvHeaderLine.toList = true
    rw [← hline]
    show listStartsWith
      (csvLine TAXBIT_CSV_HEADERS ++ String.join (rows.map (fun t => csvLine (rowStrings frepr t)))).toList
      (csvLine TAXBIT_CSV_HEADERS).toList = true
    rw [show (csvLine TAXBIT_CSV_HEADERS ++ String.join (rows.map (fun t => csvLine (rowStrings frepr t)))).toList = (csvLine TAXBIT_CSV_HEADERS).toList ++ (String.join (rows.map (fun t => csvLine (rowStrings frepr t)))).toList from String.data_append _ _]
    exact listStartsWith_append _ _
  · rw [export_none_nil digest frepr now address s e]
    exact generate_csv_nil frepr

/-- Claim C5 counterexample: a pure redelegation (with no higher-precedence
staking marker) is classified as `INTERNAL_TRANSFER`, not as the `Ignore`
category the claim asserts. -/
theorem c5_counterexample :
    classify_transaction cRedelegateTx ≠ TaxBitCategory.IGNORE := by decide

/-- Claim C5 amended: in the fixed precedence chain, a transaction carrying a
redelegate marker with no staking-deposit, staking-reward or
staking-withdrawal marker is classified as `INTERNAL_TRANSFER`; `Ignore` is
reserved for the governance branch. -/
theorem c5_amended (tx : Tx)
    (h1 : stakingDepositMarker tx = false)
    (h2 : stakingRewardMarker tx = false)
    (h3 : stakingWithdrawalMarker tx = false)
    (h4 : redelegateMarker tx = true) :
    classify_transaction tx = TaxBitCategory.INTERNAL_TRANSFER := by
  simp [classify_transaction, h1, h2, h3, h4]

/-- Claim C5 witness: the concrete redelegation transaction satisfies the
marker hypotheses and is classified as `INTERNAL_TRANSFER`. -/
theorem c5_amended_witness :
    classify_transaction cRedelegateTx = TaxBitCategory.INTERNAL_TRANSFER :=
  c5_amended cRedelegateTx (by decide) (by decide) (by decide) (by decide)

/-- Hex digits are already lowercase, so ASCII lower-casing fixes them. -/
theorem asciiLowerChar_hexDigitChar (n : ℕ) :
    asciiLowerChar (hexDigitChar n) = hexDigitChar n := by
  unfold hexDigitChar
  rcases Nat.lt_or_ge n 16 with h | h
  · interval_cases n <;> decide
  · rw [List.getD_eq_default]
    · decide
    · simpa using h

/-- List form: lower-casing the hex expansion changes nothing. -/
theorem map_asciiLowerChar_hexPairs (bs : List Byte) :
    List.map asciiLowerChar
        (bs.flatMap (fun b => [hexDigitChar (b.val / 16), hexDigitChar (b.val % 16)]))
      = bs.flatMap (fun b => [hexDigitChar (b.val / 16), hexDigitChar (b.val % 16)]) := by
  induction bs with
  | nil => rfl
  | cons b rest ih => simp [List.flatMap_cons, asciiLowerChar_hexDigitChar, ih]

/-- `bytes.hex()` output is unchanged by `str.lower`. -/
theorem asciiLower_bytesToHex (bs : List Byte) :
    asciiLower (bytesToHex bs) = bytesToHex bs :=
  congrArg String.mk (map_asciiLowerChar_hexPairs bs)

/-- Claim C6 counterexample: a value holding only the first 8 raw bytes of
the target address fails both claimed checks (full hex substring, raw-byte
containment), yet the matcher returns true through its 16-hex-character
partial-pattern probe — so the claimed if-and-only-if fails. -/
theorem c6_counterexample :
    production_transaction_involves_address cVal6 cAddr = true
      ∧ claimMatchesAB cVal6 cAddr = false := by
  constructor
  · decide
  · decide

/-- Claim C6 amended: for an address-shaped target (normalized form is 40 hex
characters decoding to 20 raw bytes), either claimed check — (a) hex
substring or (b) raw-byte containment — still implies a positive match; but
the matcher additionally accepts weaker partial-pattern hits (reversed hex,
protobuf-prefixed 8-character and plain 16-character fragments, text-encoded
`0x` form), so it is not false whenever (a) and (b) both fail. -/
theorem c6_amended (value : List Byte) (target : String) (bs : List Byte)
    (hlen : (pyStrReplace (asciiLower target) "0x" "").toList.length = 40)
    (hdec : bytesFromHex? (pyStrReplace (asciiLower target) "0x" "") = some bs)
    (hab : strContains (bytesToHex value) (pyStrReplace (asciiLower target) "0x" "") = true
        ∨ seqContains value bs = true) :
    production_transaction_involves_address value target = true := by
  unfold production_transaction_involves_address
  simp only [asciiLower_bytesToHex, hlen, hdec, Option.isNone_some, Bool.false_eq_true,
    and_false, if_false, if_true, Bool.or_eq_true]
  rcases hab with hca | hcb
  · exact Or.inl (Or.inl (Or.inl (Or.inl (Or.inl (Or.inl hca)))))
  · exact Or.inl (Or.inl (Or.inl (Or.inl (Or.inl (Or.inr hcb)))))

/-- Claim C6 witness: the full 20-byte value of the concrete address
satisfies both hypotheses and matches. -/
theorem c6_amended_witness :
    production_transaction_involves_address cValue cAddr = true :=
  c6_amended cValue cAddr cValue (by decide) (by decide) (Or.inr (by decide))

/-- Claim C7 counterexample: the concrete value yields exactly one extracted
address, foreign to the target `cUser7`, yet the normalized record leaves
`to_address` empty instead of assigning the target to the missing side. -/
theorem c7_counterexample :
    extract_real_evm_addresses cValue cUser7 = ("0x" ++ cAddrHex, "")
      ∧ (production_parse_leveldb_transaction cDigest cNow1 cKey cValue cUser7).from_address
          = "0x" ++ cAddrHex
      ∧ (production_parse_leveldb_transaction cDigest cNow1 cKey cValue cUser7).to_address = ""
      ∧ (production_parse_leveldb_transaction cDigest cNow1 cKey cValue cUser7).from_address
          ≠ cUser7
      ∧ (production_parse_leveldb_transaction cDigest cNow1 cKey cValue cUser7).to_address
          ≠ cUser7 := by
  refine ⟨by decide, by decide, by decide, by decide, by decide⟩

/-- Claim C7 amended: when extraction yields `(a, "")` — at most one address —
the record's `from_address` is `a` when `a` is non-empty (with `to_address`
left empty, the target never substituted there), and only when nothing is
extracted does the target take the `from` side, with `to_address` empty. -/
theorem c7_amended (digest : List Byte → String) (now : PyDateTime)
    (key value : List Byte) (user a : String)
    (h : extract_real_evm_addresses value user = (a, "")) :
    (a ≠ "" →
        (production_parse_leveldb_transaction digest now key value user).from_address = a
          ∧ (production_parse_leveldb_transaction digest now key value user).to_address = "")
      ∧ (a = "" →
        (production_parse_leveldb_transaction digest now key value user).from_address = user
          ∧ (production_parse_leveldb_transaction digest now key value user).to_address = "") := by
  unfold production_parse_leveldb_transaction
  rw [h]
  constructor
  · intro ha
    constructor
    · simp [ha]
    · simp
  · intro ha
    constructor
    · simp [ha]
    · simp

/-- Claim C7 witness: applying the amended rule at the concrete single-foreign
value shows `from` is the foreign address and `to` stays empty. -/
theorem c7_amended_witness :
    (production_parse_leveldb_transaction cDigest cNow1 cKey cValue cUser7).from_address
        = "0x" ++ cAddrHex
      ∧ (production_parse_leveldb_transaction cDigest cNow1 cKey cValue cUser7).to_address
        = "" :=
  (c7_amended cDigest cNow1 cKey cValue cUser7 ("0x" ++ cAddrHex) (by decide)).1 (by decide)

/-- `strLtB` never relates a list to itself. -/
theorem strLtB_irrefl (x : List Char) : strLtB x x = false := by
  induction x with
  | nil => rfl
  | cons a as ih => simp [strLtB, ih]

/-- Non-strictness composes: the sort key order is transitive. -/
theorem strLtB_false_trans {x y z : List Char}
    (h1 : strLtB x y = false) (h2 : strLtB y z = false) : strLtB x z = false := by
  induction x generalizing y z with
  | nil =>
    cases y with
    | nil => exact h2
    | cons b bs =>
      simp [strLtB] at h1
  | cons a as ih =>
    cases z with
    | nil => rfl
    | cons c cs =>
      cases y with
      | nil => simp [strLtB] at h2
      | cons b bs =>
        simp only [strLtB] at h1 h2 ⊢
        by_cases hab : a.toNat < b.toNat
        · simp [hab] at h1
        · by_cases hbc : b.toNat < c.toNat
          · simp [hbc] at h2
          · have hac : ¬ a.toNat < c.toNat := by omega
            simp only [hab, hbc, hac, if_false] at h1 h2 ⊢
            by_cases hca : c.toNat < a.toNat
            · simp [hca]
            · have hba : ¬ b.toNat < a.toNat := by omega
              have hcb : ¬ c.toNat < b.toNat := by omega
              simp only [hba, hcb, hca, if_false] at h1 h2 ⊢
              exact ih h1 h2

/-- The sort key order is total. -/
theorem strLtB_false_total (x y : List Char) :
    strLtB x y = false ∨ strLtB y x = false := by
  induction x generalizing y with
  | nil =>
    cases y with
    | nil => exact Or.inl rfl
    | cons b bs => exact Or.inr rfl
  | cons a as ih =>
    cases y with
    | nil => exact Or.inl rfl
    | cons b bs =>
      simp only [strLtB]
      by_cases hab : a.toNat < b.toNat
      · have hba : ¬ b.toNat < a.toNat := by omega
        simp [hab, hba]
      · by_cases hba : b.toNat < a.toNat
        · simp [hab, hba]
        · simpa [hab, hba] using ih bs

instance : IsTrans Tx tsGe :=
  ⟨fun _ _ _ h1 h2 => strLtB_false_trans h1 h2⟩

instance : IsTotal Tx tsGe :=
  ⟨fun a b => strLtB_false_total a.timestamp.toList b.timestamp.toList⟩

/-- Claim C8 counterexample: two retained transactions share a timestamp and
arrive larger-hash first; the merger keeps them in arrival order `[0xbb,
0xaa]` although the claim requires the lexicographically smaller hash `0xaa`
first. -/
theorem c8_counterexample :
    deduplicate_and_filter_transactions [txB8, txA8] none none = [txB8, txA8]
      ∧ strLtB txA8.hash.toList txB8.hash.toList = true
      ∧ txA8.timestamp = txB8.timestamp
      ∧ txA8 ≠ txB8 := by
  refine ⟨by decide, by decide, by decide, by decide⟩

/-- Claim C8 amended: the merged, deduplicated sequence is sorted by
timestamp descending (non-strict, comparing the ISO timestamp strings);
equal-timestamp transactions keep their first-seen order — the sort is
stable — and no hash tie-break is applied. -/
theorem c8_amended (txs : List Tx) (s e : Option PyDateTime) :
    (deduplicate_and_filter_transactions txs s e).Pairwise tsGe := by
  unfold deduplicate_and_filter_transactions
  have hsorted : (List.insertionSort tsGe (dedupByHash [] txs)).Pairwise tsGe :=
    List.sorted_insertionSort tsGe (dedupByHash [] txs)
  split
  · exact List.Pairwise.sublist (List.filter_sublist _) hsorted
  · exact hsorted

/-- Claim C9: an unopenable store makes the scan strategy return the empty
sequence (no error), and the export still completes — it serializes exactly
the merged RPC-strategy results, degrading to the bare header line when those
are empty too. -/
theorem c9_theorem (digest : List Byte → String) (frepr : ℚ → String)
    (now : PyDateTime) (address : String) (s e : Option PyDateTime) (rpc : List Tx) :
    fetch_transactions_from_leveldb digest now none address s e = []
      ∧ export_address_transactions digest frepr now none rpc address s e =
          (if deduplicate_and_filter_transactions rpc s e = [] then generate_csv frepr []
           else generate_csv frepr ((deduplicate_and_filter_transactions rpc s e).map
              (convert_transaction now)))
      ∧ export_address_transactions digest frepr now none [] address s e = csvHeaderLine := by
  refine ⟨rfl, rfl, ?_⟩
  rw [export_none_nil digest frepr now address s e]
  exact generate_csv_nil frepr

/-- Claim C10: every record the scan path normalizes carries `success = true`,
`height = "0"` and `fee = "0"` unconditionally, and its converted row's
status is `"Completed"` — a failed on-chain transaction discovered by the
scan is indistinguishable from a successful one. -/
theorem c10_theorem (digest : List Byte → String) (now now2 : PyDateTime)
    (key value : List Byte) (user : String) :
    (production_parse_leveldb_transaction digest now key value user).success = true
      ∧ (production_parse_leveldb_transaction digest now key value user).height = "0"
      ∧ (production_parse_leveldb_transaction digest now key value user).fee = "0"
      ∧ (convert_transaction now2
          (production_parse_leveldb_transaction digest now key value user)).status
        = "Completed" := by
  refine ⟨rfl, rfl, rfl, rfl⟩
